import Mathlib

/-!
Shallow embedding of `homework.py`: a fitness-tracker calculator with a base
`Training` class, three activity variants (`Running`, `SportsWalking`,
`Swimming`), an `InfoMessage` report value with a fixed format template, and a
`read_package` factory dispatching on an activity code.

Python floats are modelled as exact rationals (`ℚ`); Python ints flowing into
the same arithmetic are modelled as `ℚ` as well (Python coerces them in the
mixed arithmetic of every formula).  Division is `ℚ` division; every claim that
divides carries the `duration > 0` (resp. `height > 0`) hypothesis the spec
states.
-/

/-- Base class `Training` (`homework.py` lines 24-60): raw inputs common to all
activities. -/
structure Training where
  action : ℚ
  duration_h : ℚ
  weight_kg : ℚ

namespace Training

/-- `M_IN_KM = 1000` (line 26). -/
def M_IN_KM : ℚ := 1000

/-- `SEC_IN_HOUR = 3600` (line 27). -/
def SEC_IN_HOUR : ℚ := 3600

/-- `LEN_STEP = 0.65` (line 28), metres per step. -/
def LEN_STEP : ℚ := 0.65

/-- `MIN_IN_H = 60` (line 29). -/
def MIN_IN_H : ℚ := 60

/-- Body of `Training.get_distance` (line 42): `(action * LEN_STEP) / M_IN_KM`,
with the class constant `LEN_STEP` passed explicitly because Python resolves
`self.LEN_STEP` dynamically (`Swimming` overrides it). -/
def get_distance_impl (len_step : ℚ) (t : Training) : ℚ :=
  t.action * len_step / M_IN_KM

/-- `Training.get_distance` as seen from a class whose `LEN_STEP` is the base
one (`Training`, `Running`, `SportsWalking`). -/
def get_distance (t : Training) : ℚ :=
  get_distance_impl LEN_STEP t

/-- Body of `Training.get_mean_speed` (line 46): `get_distance() / duration_h`,
again parametrised by the dynamically bound `LEN_STEP`. -/
def get_mean_speed_impl (len_step : ℚ) (t : Training) : ℚ :=
  get_distance_impl len_step t / t.duration_h

/-- `Training.get_mean_speed` with the base `LEN_STEP`. -/
def get_mean_speed (t : Training) : ℚ :=
  get_mean_speed_impl LEN_STEP t

end Training

/-- `Running` (lines 63-76): no extra fields. -/
structure Running extends Training

namespace Running

/-- `CALORIES_MEAN_SPEED_MULTIPLIER = 18` (line 65). -/
def CALORIES_MEAN_SPEED_MULTIPLIER : ℚ := 18

/-- `CALORIES_MEAN_SPEED_SHIFT = 1.79` (line 66). -/
def CALORIES_MEAN_SPEED_SHIFT : ℚ := 1.79

/-- Inherited `get_distance` (base `LEN_STEP = 0.65`). -/
def get_distance (r : Running) : ℚ :=
  r.toTraining.get_distance

/-- Inherited `get_mean_speed`. -/
def get_mean_speed (r : Running) : ℚ :=
  r.toTraining.get_mean_speed

/-- `Running.get_spent_calories` (lines 68-76). -/
def get_spent_calories (r : Running) : ℚ :=
  (CALORIES_MEAN_SPEED_MULTIPLIER * r.get_mean_speed
      + CALORIES_MEAN_SPEED_SHIFT)
    * r.weight_kg / Training.M_IN_KM
    * r.duration_h * Training.MIN_IN_H

end Running

/-- `SportsWalking` (lines 79-110): adds `height_cm`. -/
structure SportsWalking extends Training where
  height_cm : ℚ

namespace SportsWalking

/-- `CALORIES_WEIGHT_MULTIPLIER_1 = 0.035` (line 81). -/
def CALORIES_WEIGHT_MULTIPLIER_1 : ℚ := 0.035

/-- `CALORIES_WEIGHT_MULTIPLIER_2 = 0.029` (line 82). -/
def CALORIES_WEIGHT_MULTIPLIER_2 : ℚ := 0.029

/-- Model of Python `round(x, 3)` on these inputs: round `x * 10^3` to the
nearest integer and divide back.  (Python rounds ties to even; `1000/3600`
is not a tie, so the tie rule is irrelevant here.) -/
def pyRound3 (q : ℚ) : ℚ :=
  ((round (q * 1000) : ℤ) : ℚ) / 1000

/-- `KM_H_TO_M_S = round(1000 / 3600, 3)` (line 83). -/
def KM_H_TO_M_S : ℚ := pyRound3 (1000 / 3600)

/-- `CM_TO_M = 100` (line 84). -/
def CM_TO_M : ℚ := 100

/-- Inherited `get_distance` (base `LEN_STEP = 0.65`). -/
def get_distance (s : SportsWalking) : ℚ :=
  s.toTraining.get_distance

/-- Inherited `get_mean_speed`. -/
def get_mean_speed (s : SportsWalking) : ℚ :=
  s.toTraining.get_mean_speed

/-- `SportsWalking.get_spent_calories` (lines 95-110). -/
def get_spent_calories (s : SportsWalking) : ℚ :=
  let speed_in_m := s.get_mean_speed * KM_H_TO_M_S
  (CALORIES_WEIGHT_MULTIPLIER_1 * s.weight_kg
      + speed_in_m ^ 2 / (s.height_cm / CM_TO_M)
        * CALORIES_WEIGHT_MULTIPLIER_2 * s.weight_kg)
    * s.duration_h * Training.MIN_IN_H

end SportsWalking

/-- `Swimming` (lines 113-143): adds `length_pool` and `count_pool`, overrides
`LEN_STEP` and `get_mean_speed`. -/
structure Swimming extends Training where
  length_pool : ℚ
  count_pool : ℚ

namespace Swimming

/-- Overridden `LEN_STEP = 1.38` (line 115), metres per stroke. -/
def LEN_STEP : ℚ := 1.38

/-- `CALORIES_SPEED_SHIFT = 1.1` (line 116). -/
def CALORIES_SPEED_SHIFT : ℚ := 1.1

/-- `DOUBLER = 2` (line 117). -/
def DOUBLER : ℚ := 2

/-- Inherited `get_distance` body, with `self.LEN_STEP` now resolving to the
overridden `1.38`. -/
def get_distance (s : Swimming) : ℚ :=
  Training.get_distance_impl LEN_STEP s.toTraining

/-- Overriding `Swimming.get_mean_speed` (lines 130-134):
`length_pool * count_pool / M_IN_KM / duration_h`. -/
def get_mean_speed (s : Swimming) : ℚ :=
  s.length_pool * s.count_pool / Training.M_IN_KM / s.duration_h

/-- `Swimming.get_spent_calories` (lines 136-143). -/
def get_spent_calories (s : Swimming) : ℚ :=
  (s.get_mean_speed + CALORIES_SPEED_SHIFT)
    * DOUBLER * s.weight_kg * s.duration_h

end Swimming

/-- The walking conversion constant is the 3-decimal rounding of `1000/3600`,
i.e. `0.278`, not the exact quotient `5/18 = 0.2777...`. -/
theorem KM_H_TO_M_S_eq : SportsWalking.KM_H_TO_M_S = 0.278 := by
  norm_num [SportsWalking.KM_H_TO_M_S, SportsWalking.pyRound3, round_eq]

/-- C1: a `Running` session with action count `a ≥ 0`, duration `d > 0` hours
and weight `w > 0` kg spends `(18 * mean_speed + 1.79) * w / 1000 * d * 60`
calories, where `mean_speed = (a * 0.65 / 1000) / d` is the generic mean speed
in km/h. -/
theorem running_spent_calories_formula (a d w : ℚ)
    (ha : 0 ≤ a) (hd : 0 < d) (hw : 0 < w) :
    Running.get_spent_calories ⟨⟨a, d, w⟩⟩
      = (18 * (a * 0.65 / 1000 / d) + 1.79) * w / 1000 * d * 60 :=
  rfl

/-- Witness for C1 at the driver's `RUN` reading `(15000, 1, 75)`. -/
theorem running_spent_calories_formula_witness :
    Running.get_spent_calories ⟨⟨15000, 1, 75⟩⟩
      = (18 * ((15000 : ℚ) * 0.65 / 1000 / 1) + 1.79) * 75 / 1000 * 1 * 60 :=
  running_spent_calories_formula 15000 1 75 (by norm_num) (by norm_num)
    (by norm_num)

/-- C5: a `Running` session with action count `a ≥ 0` covers exactly
`a * 0.65 / 1000` km (exact rational equality, stronger than the claimed
`1e-9` tolerance). -/
theorem running_distance_formula (a d w : ℚ) (ha : 0 ≤ a) :
    Running.get_distance ⟨⟨a, d, w⟩⟩ = a * 0.65 / 1000 :=
  rfl

/-- Witness for C5 at the driver's `RUN` reading `(15000, 1, 75)`. -/
theorem running_distance_formula_witness :
    Running.get_distance ⟨⟨15000, 1, 75⟩⟩ = (15000 : ℚ) * 0.65 / 1000 :=
  running_distance_formula 15000 1 75 (by norm_num)

/-- C3: a `Swimming` session's mean speed is
`length_pool * count_pool / 1000 / duration_h`, and it does not depend on the
action count in any way. -/
theorem swimming_mean_speed_formula (a d w l c : ℚ) :
    Swimming.get_mean_speed ⟨⟨a, d, w⟩, l, c⟩ = l * c / 1000 / d ∧
    ∀ a1 a2 : ℚ, Swimming.get_mean_speed ⟨⟨a1, d, w⟩, l, c⟩
        = Swimming.get_mean_speed ⟨⟨a2, d, w⟩, l, c⟩ :=
  ⟨rfl, fun _ _ => rfl⟩

/-- C4: a `Swimming` session's distance is still the generic per-unit formula
`action * 1.38 / 1000` with the stroke constant `1.38`; it ignores the pool
fields, while the mean speed comes from the pool fields alone — the two
derivations are independent. -/
theorem swimming_distance_formula (a d w l c : ℚ) :
    Swimming.get_distance ⟨⟨a, d, w⟩, l, c⟩ = a * 1.38 / 1000 ∧
    (∀ l1 c1 l2 c2 : ℚ, Swimming.get_distance ⟨⟨a, d, w⟩, l1, c1⟩
        = Swimming.get_distance ⟨⟨a, d, w⟩, l2, c2⟩) ∧
    (∀ a1 a2 : ℚ, Swimming.get_mean_speed ⟨⟨a1, d, w⟩, l, c⟩
        = Swimming.get_mean_speed ⟨⟨a2, d, w⟩, l, c⟩) :=
  ⟨rfl, fun _ _ _ _ => rfl, fun _ _ => rfl⟩

/-- C10: two `Swimming` sessions differing only in action count spend exactly
the same calories, even though their distances differ whenever the action
counts do. -/
theorem swimming_calories_action_independent (a1 a2 d w l c : ℚ) :
    Swimming.get_spent_calories ⟨⟨a1, d, w⟩, l, c⟩
        = Swimming.get_spent_calories ⟨⟨a2, d, w⟩, l, c⟩ ∧
    (a1 ≠ a2 → Swimming.get_distance ⟨⟨a1, d, w⟩, l, c⟩
        ≠ Swimming.get_distance ⟨⟨a2, d, w⟩, l, c⟩) := by
  refine ⟨rfl, fun hne h => hne ?_⟩
  simp only [Swimming.get_distance, Training.get_distance_impl,
    Swimming.LEN_STEP, Training.M_IN_KM] at h
  field_simp at h
  rcases h with h | h
  · exact h
  · exact absurd h (by norm_num)

/-- Witness for C10: the driver's `SWM` reading with action count `720`
against the same session with action count `0`. -/
theorem swimming_calories_action_independent_witness :
    Swimming.get_spent_calories ⟨⟨720, 1, 80⟩, 25, 40⟩
        = Swimming.get_spent_calories ⟨⟨0, 1, 80⟩, 25, 40⟩ ∧
    Swimming.get_distance ⟨⟨720, 1, 80⟩, 25, 40⟩
        ≠ Swimming.get_distance ⟨⟨0, 1, 80⟩, 25, 40⟩ :=
  ⟨(swimming_calories_action_independent 720 0 1 80 25 40).1,
   (swimming_calories_action_independent 720 0 1 80 25 40).2 (by norm_num)⟩

/-- C2 counterexample: at the driver's `WLK` reading `(9000, 1, 75, 180)` the
code's walking calories differ from the claim's formula built on the exact
km/h→m/s factor `1000/3600`, because the code multiplies by
`round(1000/3600, 3) = 0.278` instead. -/
theorem walking_exact_conversion_cex :
    SportsWalking.get_spent_calories ⟨⟨9000, 1, 75⟩, 180⟩
      ≠ (0.035 * 75 + ((9000 * 0.65 / 1000 / 1) * (1000 / 3600)) ^ 2
            / (180 / 100) * 0.029 * 75) * 1 * 60 := by
  norm_num [SportsWalking.get_spent_calories, SportsWalking.get_mean_speed,
    Training.get_mean_speed, Training.get_mean_speed_impl,
    Training.get_distance_impl, SportsWalking.CALORIES_WEIGHT_MULTIPLIER_1,
    SportsWalking.CALORIES_WEIGHT_MULTIPLIER_2, SportsWalking.CM_TO_M,
    Training.LEN_STEP, Training.M_IN_KM, Training.MIN_IN_H, KM_H_TO_M_S_eq]

/-- C2 amended: a `SportsWalking` session with `a ≥ 0`, `d > 0`, `w > 0`,
`h > 0` spends `(0.035*w + (speed_m_s^2 / (h/100)) * 0.029*w) * d * 60`
calories, where `speed_m_s = mean_speed_kmh * 0.278` and `0.278` is
`1000/3600` rounded to 3 decimal places (the code's `KM_H_TO_M_S`), not the
exact quotient. -/
theorem walking_spent_calories_formula (a d w h : ℚ)
    (ha : 0 ≤ a) (hd : 0 < d) (hw : 0 < w) (hh : 0 < h) :
    SportsWalking.get_spent_calories ⟨⟨a, d, w⟩, h⟩
      = (0.035 * w + ((a * 0.65 / 1000 / d) * 0.278) ^ 2
            / (h / 100) * 0.029 * w) * d * 60 := by
  simp only [SportsWalking.get_spent_calories, SportsWalking.get_mean_speed,
    Training.get_mean_speed, Training.get_mean_speed_impl,
    Training.get_distance_impl, SportsWalking.CALORIES_WEIGHT_MULTIPLIER_1,
    SportsWalking.CALORIES_WEIGHT_MULTIPLIER_2, SportsWalking.CM_TO_M,
    Training.LEN_STEP, Training.M_IN_KM, Training.MIN_IN_H, KM_H_TO_M_S_eq]

/-- Witness for the amended C2 at the driver's `WLK` reading
`(9000, 1, 75, 180)`. -/
theorem walking_spent_calories_formula_witness :
    SportsWalking.get_spent_calories ⟨⟨9000, 1, 75⟩, 180⟩
      = (0.035 * 75 + (((9000 : ℚ) * 0.65 / 1000 / 1) * 0.278) ^ 2
            / (180 / 100) * 0.029 * 75) * 1 * 60 :=
  walking_spent_calories_formula 9000 1 75 180 (by norm_num) (by norm_num)
    (by norm_num) (by norm_num)

/-- `InfoMessage` (lines 5-12): the immutable session report. -/
structure InfoMessage where
  training_type : String
  duration : ℚ
  distance : ℚ
  speed : ℚ
  calories : ℚ

/-- `Running.show_training_info` — inherited from `Training` (lines 53-60);
`type(self).__name__` resolves to the concrete class name `"Running"`. -/
def Running.show_training_info (r : Running) : InfoMessage :=
  ⟨"Running", r.duration_h, r.get_distance, r.get_mean_speed,
    r.get_spent_calories⟩

/-- `SportsWalking.show_training_info` — inherited (lines 53-60);
`type(self).__name__ = "SportsWalking"`. -/
def SportsWalking.show_training_info (s : SportsWalking) : InfoMessage :=
  ⟨"SportsWalking", s.duration_h, s.get_distance, s.get_mean_speed,
    s.get_spent_calories⟩

/-- `Swimming.show_training_info` — inherited (lines 53-60) but every
overridable call resolves to the `Swimming` overrides;
`type(self).__name__ = "Swimming"`. -/
def Swimming.show_training_info (s : Swimming) : InfoMessage :=
  ⟨"Swimming", s.duration_h, s.get_distance, s.get_mean_speed,
    s.get_spent_calories⟩

/-- A constructed training instance: the dynamic type of the object
`read_package` builds. -/
inductive TrainingInst where
  | running (r : Running)
  | sportsWalking (s : SportsWalking)
  | swimming (s : Swimming)

/-- Dynamic dispatch of `show_training_info` over the instance's class. -/
def TrainingInst.show_training_info : TrainingInst → InfoMessage
  | .running r => r.show_training_info
  | .sportsWalking s => s.show_training_info
  | .swimming s => s.show_training_info

/-- The class objects appearing as values of the `workouts` dict
(lines 148-152). -/
inductive WorkoutClass where
  | swimming
  | running
  | sportsWalking
deriving DecidableEq

/-- The `TypeError` Python raises when `*data` does not fit the constructor's
positional parameters. -/
def arityErrorMsg : String := "TypeError: constructor arity mismatch"

/-- Python's `Cls(*data)` call (line 155): positional unpacking of `data`
into the class constructor.  A list whose length differs from the
constructor's arity raises `TypeError`; nothing is truncated or padded. -/
def WorkoutClass.apply : WorkoutClass → List ℚ → Except String TrainingInst
  | .running, [a, d, w] => .ok (.running ⟨⟨a, d, w⟩⟩)
  | .sportsWalking, [a, d, w, h] => .ok (.sportsWalking ⟨⟨a, d, w⟩, h⟩)
  | .swimming, [a, d, w, l, c] => .ok (.swimming ⟨⟨a, d, w⟩, l, c⟩)
  | _, _ => .error arityErrorMsg

/-- The `workouts` dict literal (lines 148-152), as an association list. -/
def workouts : List (String × WorkoutClass) :=
  [("SWM", .swimming), ("RUN", .running), ("WLK", .sportsWalking)]

/-- The `ValueError` message of line 154. -/
def unknownWorkoutMsg : String :=
  "ValueError: Нет данных о данном типе тренировок!"

/-- `read_package` (lines 146-156): look the code up in `workouts`; raise
`ValueError` when absent, otherwise call the mapped class on `data`. -/
def read_package (workout_type : String) (data : List ℚ) :
    Except String TrainingInst :=
  match workouts.lookup workout_type with
  | none => .error unknownWorkoutMsg
  | some cls => cls.apply data

/-- C6: `read_package` rejects every code outside `{"SWM","RUN","WLK"}` with
the unknown-activity `ValueError` without building any session, and maps each
recognized code with matching parameters to its variant: `"SWM"` to
`Swimming`, `"RUN"` to `Running`, `"WLK"` to `SportsWalking`. -/
theorem read_package_dispatch (wt : String) (data : List ℚ)
    (a d w l c h : ℚ)
    (h1 : wt ≠ "SWM") (h2 : wt ≠ "RUN") (h3 : wt ≠ "WLK") :
    read_package wt data = .error unknownWorkoutMsg ∧
    read_package "SWM" [a, d, w, l, c] = .ok (.swimming ⟨⟨a, d, w⟩, l, c⟩) ∧
    read_package "RUN" [a, d, w] = .ok (.running ⟨⟨a, d, w⟩⟩) ∧
    read_package "WLK" [a, d, w, h] = .ok (.sportsWalking ⟨⟨a, d, w⟩, h⟩) := by
  refine ⟨?_, rfl, rfl, rfl⟩
  have e1 : (wt == "SWM") = false := beq_eq_false_iff_ne.mpr h1
  have e2 : (wt == "RUN") = false := beq_eq_false_iff_ne.mpr h2
  have e3 : (wt == "WLK") = false := beq_eq_false_iff_ne.mpr h3
  simp [read_package, workouts, List.lookup, e1, e2, e3]

/-- Witness for C6 at the spec's example code `"XYZ"` and the driver's `SWM`
reading `(720, 1, 80, 25, 40)` with height `180` for the `WLK` case. -/
theorem read_package_dispatch_witness :
    read_package "XYZ" [1, 2, 3] = .error unknownWorkoutMsg ∧
    read_package "SWM" [720, 1, 80, 25, 40]
        = .ok (.swimming ⟨⟨720, 1, 80⟩, 25, 40⟩) ∧
    read_package "RUN" [720, 1, 80] = .ok (.running ⟨⟨720, 1, 80⟩⟩) ∧
    read_package "WLK" [720, 1, 80, 180]
        = .ok (.sportsWalking ⟨⟨720, 1, 80⟩, 180⟩) :=
  read_package_dispatch "XYZ" [1, 2, 3] 720 1 80 25 40 180 (by decide)
    (by decide) (by decide)

/-- C7: for each recognized code, a parameter list whose length differs from
the resolved constructor's arity (3 for `Running`, 4 for `SportsWalking`,
5 for `Swimming`) makes `read_package` surface the arity `TypeError` and
build no session: parameters are never truncated or padded. -/
theorem read_package_arity (data : List ℚ) :
    (data.length ≠ 3 → read_package "RUN" data = .error arityErrorMsg) ∧
    (data.length ≠ 4 → read_package "WLK" data = .error arityErrorMsg) ∧
    (data.length ≠ 5 → read_package "SWM" data = .error arityErrorMsg) := by
  refine ⟨fun hlen => ?_, fun hlen => ?_, fun hlen => ?_⟩
  · obtain _ | ⟨a, _ | ⟨b, _ | ⟨c, _ | ⟨e, rest⟩⟩⟩⟩ := data
    · rfl
    · rfl
    · rfl
    · exact absurd rfl hlen
    · rfl
  · obtain _ | ⟨a, _ | ⟨b, _ | ⟨c, _ | ⟨e, _ | ⟨f, rest⟩⟩⟩⟩⟩ := data
    · rfl
    · rfl
    · rfl
    · rfl
    · exact absurd rfl hlen
    · rfl
  · obtain _ | ⟨a, _ | ⟨b, _ | ⟨c, _ | ⟨e, _ | ⟨f, _ | ⟨g, rest⟩⟩⟩⟩⟩⟩ := data
    · rfl
    · rfl
    · rfl
    · rfl
    · rfl
    · exact absurd rfl hlen
    · rfl

/-- Witness for C7 at the spec's example `create_session("RUN", [1, 2])`. -/
theorem read_package_arity_witness :
    read_package "RUN" [1, 2] = .error arityErrorMsg :=
  (read_package_arity [1, 2]).1 (by decide)

/-- C9: the activity label `show_training_info` places in the report is
exactly the variant's class name; in particular a session created via code
`"WLK"` carries the label `"SportsWalking"`, not `"Walking"`. -/
theorem show_training_info_label (r : Running) (s : SportsWalking)
    (sw : Swimming) (a d w h : ℚ) :
    (TrainingInst.running r).show_training_info.training_type = "Running" ∧
    (TrainingInst.sportsWalking s).show_training_info.training_type
        = "SportsWalking" ∧
    (TrainingInst.swimming sw).show_training_info.training_type
        = "Swimming" ∧
    (read_package "WLK" [a, d, w, h]).map
        (fun t => t.show_training_info.training_type) = .ok "SportsWalking" ∧
    "SportsWalking" ≠ ("Walking" : String) :=
  ⟨rfl, rfl, rfl, rfl, by decide⟩

/-- Round a rational to the nearest integer, halves away from zero upward:
`⌊q + 1/2⌋`, computed directly on the numerator and denominator so that it
reduces in the kernel.  Models the rounding of Python's fixed-point float
formatting and of `round(x, n)` (which rounds exact halves to even — no value
in this development is an exact half, so the models agree). -/
def ratRound (q : ℚ) : ℤ :=
  (2 * q.num + (q.den : ℤ)) / (2 * (q.den : ℤ))

/-- `ratRound` agrees with Mathlib's `round` on every rational. -/
theorem ratRound_eq_round (q : ℚ) : ratRound q = round q := by
  have hden : ((q.den : ℚ)) ≠ 0 := by
    exact_mod_cast q.den_nz
  have h2 : q + 1 / 2
      = ((2 * q.num + (q.den : ℤ) : ℤ) : ℚ) / ((2 * q.den : ℕ) : ℚ) := by
    conv_lhs => rw [← Rat.num_div_den q]
    push_cast
    field_simp
    ring
  rw [round_eq, ratRound, h2, Rat.floor_intCast_div_natCast]
  push_cast
  rfl

/-- Python's `'%.3f'`-style fixed-point rendering of a rational: optional
sign, decimal integer part, a point, then exactly three zero-padded
fractional digits. -/
def formatFixed3 (q : ℚ) : String :=
  let n : ℤ := ratRound (q * 1000)
  let m : ℕ := n.natAbs
  ((if n < 0 then "-" else "") ++ Nat.repr (m / 1000))
    ++ String.mk ['.', Nat.digitChar (m % 1000 / 100),
        Nat.digitChar (m % 1000 / 10 % 10), Nat.digitChar (m % 1000 % 10)]

/-- The opening brace character of a `str.format` placeholder. -/
def braceL : Char := Char.ofNat 123

/-- The closing brace character of a `str.format` placeholder. -/
def braceR : Char := Char.ofNat 125

/-- A value of `asdict(self)`: either a string field or a numeric field. -/
inductive FieldVal where
  | str (s : String)
  | num (q : ℚ)

/-- `asdict(self)` for an `InfoMessage` (line 21): field names in declaration
order with their values. -/
def InfoMessage.asdict (m : InfoMessage) : List (List Char × FieldVal) :=
  [("training_type".data, .str m.training_type),
   ("duration".data, .num m.duration),
   ("distance".data, .num m.distance),
   ("speed".data, .num m.speed),
   ("calories".data, .num m.calories)]

/-- Apply a `str.format` format spec to a field value: no spec renders a
string verbatim, `.3f` renders a number with `formatFixed3`. -/
def applySpec (v : FieldVal) (spec : List Char) : List Char :=
  match v with
  | .str s => if spec = [] then s.data else []
  | .num q => if spec = ".3f".data then (formatFixed3 q).data else []

/-- Resolve one placeholder body `name:spec` (or bare `name`) against the
message's `asdict`. -/
def renderKey (m : InfoMessage) (key : List Char) : List Char :=
  let name := key.takeWhile (fun ch => ch ≠ ':')
  let spec := (key.dropWhile (fun ch => ch ≠ ':')).drop 1
  match m.asdict.lookup name with
  | some v => applySpec v spec
  | none => []

/-- The substitution pass of `str.format`: copy characters, and between `{`
and `}` accumulate a placeholder key and splice in its rendering.  The
`Option` argument is `some key` while inside a placeholder. -/
def formatChars (m : InfoMessage) : Option (List Char) → List Char → List Char
  | _, [] => []
  | none, ch :: rest =>
      if ch = braceL then formatChars m (some []) rest
      else ch :: formatChars m none rest
  | some key, ch :: rest =>
      if ch = braceR then renderKey m key ++ formatChars m none rest
      else formatChars m (some (key ++ [ch])) rest

/-- The `info_string` template of lines 16-20 (briefly: training type,
duration, distance, mean speed, calories, each numeric one with a `.3f`
spec). -/
def info_string : String :=
  "Тип тренировки: \x7btraining_type\x7d; Длительность: \x7bduration:.3f\x7d ч.; Дистанция: \x7bdistance:.3f\x7d км; Ср. скорость: \x7bspeed:.3f\x7d км/ч; Потрачено ккал: \x7bcalories:.3f\x7d."

/-- `InfoMessage.get_message` (lines 14-21):
`info_string.format(**asdict(self))`. -/
def InfoMessage.get_message (m : InfoMessage) : String :=
  String.mk (formatChars m none info_string.data)

/-- `String.append` is associative (data-level list associativity). -/
theorem string_append_assoc (a b c : String) : a ++ b ++ c = a ++ (b ++ c) :=
  String.ext (List.append_assoc a.data b.data c.data)

/-- `Nat.digitChar` sends every digit below ten to an ASCII digit. -/
theorem digitChar_isDigit (n : ℕ) (h : n < 10) :
    (Nat.digitChar n).isDigit = true := by
  interval_cases n <;> decide

set_option maxRecDepth 8000 in
/-- C8: `get_message` renders the fixed template: the activity label first,
then the four numeric fields in the order duration, distance, mean speed,
calories, each formatted to exactly three decimal places, with a terminal
period. -/
theorem get_message_format (m : InfoMessage) :
    m.get_message
      = "Тип тренировки: " ++ m.training_type ++ "; Длительность: "
        ++ formatFixed3 m.duration ++ " ч.; Дистанция: "
        ++ formatFixed3 m.distance ++ " км; Ср. скорость: "
        ++ formatFixed3 m.speed ++ " км/ч; Потрачено ккал: "
        ++ formatFixed3 m.calories ++ "." ∧
    (∀ q : ℚ, ∃ ip : String, ∃ d2 d1 d0 : Char,
        formatFixed3 q = ip ++ String.mk ['.', d2, d1, d0] ∧
        d2.isDigit = true ∧ d1.isDigit = true ∧ d0.isDigit = true) ∧
    ∃ s : String, m.get_message = s ++ "." := by
  have h1 : m.get_message
      = "Тип тренировки: " ++ m.training_type ++ "; Длительность: "
        ++ formatFixed3 m.duration ++ " ч.; Дистанция: "
        ++ formatFixed3 m.distance ++ " км; Ср. скорость: "
        ++ formatFixed3 m.speed ++ " км/ч; Потрачено ккал: "
        ++ formatFixed3 m.calories ++ "." := by
    simp only [string_append_assoc]
    rfl
  refine ⟨h1, fun q => ?_, ?_⟩
  · refine ⟨(if ratRound (q * 1000) < 0 then "-" else "")
        ++ Nat.repr ((ratRound (q * 1000)).natAbs / 1000),
      Nat.digitChar ((ratRound (q * 1000)).natAbs % 1000 / 100),
      Nat.digitChar ((ratRound (q * 1000)).natAbs % 1000 / 10 % 10),
      Nat.digitChar ((ratRound (q * 1000)).natAbs % 1000 % 10),
      rfl, digitChar_isDigit _ (by omega), digitChar_isDigit _ (by omega),
      digitChar_isDigit _ (by omega)⟩
  · exact ⟨"Тип тренировки: " ++ m.training_type ++ "; Длительность: "
        ++ formatFixed3 m.duration ++ " ч.; Дистанция: "
        ++ formatFixed3 m.distance ++ " км; Ср. скорость: "
        ++ formatFixed3 m.speed ++ " км/ч; Потрачено ккал: "
        ++ formatFixed3 m.calories, h1⟩
